import Mathlib

/-!
Shallow embedding of the `tcprs` user-space TCP implementation
(`src/lib.rs`, `src/tcp.rs`, `src/main.rs`).

Machine integers are modelled as `Nat` with explicit reduction modulo
`2^32` (for `u32`) exactly where the Rust code uses wrapping arithmetic.
The tunnel device is modelled as a list of emitted segments; a fallible
`nic.send` is modelled by a `sendOk : Bool` parameter.  Rust panics
(the `assert!` in `on_packet`) are modelled by `Option`.
-/

namespace Tcprs

/-- Modulus of `u32` arithmetic. -/
def u32M : Nat := 4294967296

/-- Rust `u32::wrapping_add`. -/
def wrappingAdd (a b : Nat) : Nat := (a + b) % u32M

/-- Rust `u32::wrapping_sub` (operands are first reduced mod `2^32`). -/
def wrappingSub (a b : Nat) : Nat := (a % u32M + (u32M - b % u32M)) % u32M

/-- From `tcp.rs`: `wrapping_lt(lhs, rhs) = lhs.wrapping_sub(rhs) > (1 << 31)`. -/
def wrapping_lt (lhs rhs : Nat) : Bool := decide (2147483648 < wrappingSub lhs rhs)

/-- From `tcp.rs`: `is_between_wrapped(start, target, end)`. -/
def is_between_wrapped (start target e : Nat) : Bool :=
  wrapping_lt start target && wrapping_lt target e

/-- Connection state enum from `tcp.rs` (`State`). -/
inductive State where
  | SynRcvd
  | Estab
  | FinWait1
  | FinWait2
  | CloseWait
  | Closing
  | TimeWait
deriving DecidableEq, Repr

/-- `State::is_synchronized` from `tcp.rs`. -/
def State.is_synchronized : State → Bool
  | .Estab | .FinWait1 | .FinWait2 | .CloseWait | .Closing => true
  | _ => false

/-- Send sequence space (`SendSequenceSpace` in `tcp.rs`).  All `u32`
fields are `Nat` values below `2^32` in any state produced by the code;
`wnd` is a `u16`. -/
structure SendSequenceSpace where
  una : Nat
  nxt : Nat
  wnd : Nat
  up : Bool
  wl1 : Nat
  wl2 : Nat
  iss : Nat
deriving DecidableEq, Repr

/-- Receive sequence space (`ReceiveSequenceSpace` in `tcp.rs`). -/
structure ReceiveSequenceSpace where
  nxt : Nat
  wnd : Nat
  up : Bool
  irs : Nat
deriving DecidableEq, Repr

/-- The mutable fields of the cached `etherparse::TcpHeader` template that
`tcp.rs` reads or writes: ports, seq/ack numbers, the four control flags it
touches, and the advertised window. -/
structure TcpHeaderTpl where
  sourcePort : Nat
  destinationPort : Nat
  sequenceNumber : Nat
  acknowledgmentNumber : Nat
  windowSize : Nat
  syn : Bool
  ack : Bool
  fin : Bool
  rst : Bool
deriving DecidableEq, Repr

/-- The fields of the cached `etherparse::Ipv4Header` template that
`tcp.rs` writes: addresses (four bytes each) and the payload length set
before each emission. -/
structure Ipv4HeaderTpl where
  source : List Nat
  destination : List Nat
  payloadLen : Nat
deriving DecidableEq, Repr

/-- `Connection` from `tcp.rs`. -/
structure Connection where
  state : State
  send : SendSequenceSpace
  recv : ReceiveSequenceSpace
  iph : Ipv4HeaderTpl
  tcph : TcpHeaderTpl
  incoming : List Nat
  unacked : List Nat
  closed : Bool
deriving DecidableEq, Repr

/-- An inbound segment as seen by `accept` / `on_packet`: the parsed TCP
header fields the code consults plus the payload bytes. -/
structure Seg where
  srcPort : Nat
  dstPort : Nat
  seq : Nat
  ackN : Nat
  wnd : Nat
  syn : Bool
  ack : Bool
  fin : Bool
  rst : Bool
  payload : List Nat
deriving DecidableEq, Repr

/-- A segment emitted through the tunnel by `Connection::write`: the header
fields as serialized into the buffer (flags are captured before `write`
clears SYN/FIN on the template) plus the payload bytes actually written. -/
structure OutSeg where
  seq : Nat
  ackNum : Nat
  synF : Bool
  ackF : Bool
  finF : Bool
  rstF : Bool
  payload : List Nat
deriving DecidableEq, Repr

/-- `Available` from `tcp.rs` (`flag` is a `u8` bitset; `CAP_READ = 1`). -/
structure Available where
  flag : Nat
deriving DecidableEq, Repr

/-- `Available::is_readable`. -/
def Available.is_readable (a : Available) : Bool := decide (0 < Nat.land a.flag 1)

/-- `Connection::is_recv_closed` from `tcp.rs`: true only in `TimeWait`
(the source carries a TODO for the other states). -/
def Connection.is_recv_closed (c : Connection) : Bool :=
  match c.state with
  | .TimeWait => true
  | _ => false

/-- `Connection::availability` from `tcp.rs`. -/
def Connection.availability (c : Connection) : Available :=
  { flag := if c.is_recv_closed || !c.incoming.isEmpty then 1 else 0 }

/-- An `io::Result<usize>` value. -/
inductive IoResult where
  | ok (n : Nat)
  | ioError
deriving DecidableEq, Repr

/-- Result of `Connection::write`: the mutated connection, the datagram
handed to `nic.send` (none when the send fails), and the `io::Result`. -/
structure WriteResult where
  conn : Connection
  sent : Option OutSeg
  ret : IoResult
deriving DecidableEq, Repr

/-- `Connection::write(nic, seq, payload)` from `tcp.rs`.  The 1500-byte
stack buffer holds the 20-byte IPv4 header and the 20-byte TCP header
(the template carries no options), so the cursor accepts at most 1460
payload bytes.  All `self` mutations (template seq/ack, SYN/FIN clearing,
`send.nxt`) happen before `nic.send`; `sendOk` tells whether that final
send succeeds. -/
def Connection.write (c : Connection) (seq : Nat) (payload : List Nat)
    (sendOk : Bool) : WriteResult :=
  let tc0 : TcpHeaderTpl :=
    { c.tcph with sequenceNumber := seq % u32M, acknowledgmentNumber := c.recv.nxt }
  let size := min 1500 (20 + 20 + payload.length)
  let ip : Ipv4HeaderTpl := { c.iph with payloadLen := size - 20 }
  let payloadBytes := min payload.length 1460
  let outSeg : OutSeg :=
    { seq := seq % u32M
      ackNum := c.recv.nxt
      synF := tc0.syn
      ackF := tc0.ack
      finF := tc0.fin
      rstF := tc0.rst
      payload := payload.take payloadBytes }
  let n1 := wrappingAdd seq payloadBytes
  let n2 := if tc0.syn then wrappingAdd n1 1 else n1
  let tc1 := if tc0.syn then { tc0 with syn := false } else tc0
  let n3 := if tc1.fin then wrappingAdd n2 1 else n2
  let tc2 := if tc1.fin then { tc1 with fin := false } else tc1
  let c1 : Connection :=
    { c with iph := ip, tcph := tc2, send := { c.send with nxt := n3 } }
  { conn := c1
    sent := if sendOk then some outSeg else none
    ret := if sendOk then .ok (40 + payloadBytes) else .ioError }

/-- `Connection::send_ack(nic, buf) = write(nic, send.nxt, buf)`. -/
def Connection.send_ack (c : Connection) (buf : List Nat) (sendOk : Bool) :
    WriteResult :=
  c.write c.send.nxt buf sendOk

/-- `Connection::send_rst` from `tcp.rs`: sets RST on the template, zeroes
the template ack number (which `write` immediately overwrites with
`recv.nxt`), sets the IPv4 payload length, and sends with `seq = 0`. -/
def Connection.send_rst (c : Connection) (sendOk : Bool) : WriteResult :=
  let c1 : Connection :=
    { c with
      tcph := { c.tcph with rst := true, acknowledgmentNumber := 0 },
      iph := { c.iph with payloadLen := 20 } }
  c1.write 0 [] sendOk

/-- Result of `Connection::accept`: `conn` is the `Option<Connection>`
inside the `Ok`, `sent` collects the datagrams put on the wire.  `accept`
itself never returns `Err`; the `io::Result` of the inner `send_ack` is
discarded. -/
structure AcceptResult where
  conn : Option Connection
  sent : List OutSeg
deriving DecidableEq, Repr

/-- `Connection::accept` from `tcp.rs`.  `srcIp`/`dstIp` are the IPv4
addresses from the enclosing IP header; `sendOk` tells whether the
`nic.send` performed by the inner `send_ack` succeeds. -/
def Connection.accept (srcIp dstIp : List Nat) (seg : Seg) (sendOk : Bool) :
    AcceptResult :=
  if !seg.syn then
    { conn := none, sent := [] }
  else
    let iss := 0
    let wnd := 1024
    let c : Connection :=
      { state := .SynRcvd
        send :=
          { iss := iss, una := iss, nxt := iss, wnd := wnd
            up := false, wl1 := 0, wl2 := 0 }
        recv :=
          { irs := seg.seq % u32M
            nxt := wrappingAdd seg.seq 1
            wnd := seg.wnd % 65536
            up := false }
        tcph :=
          { sourcePort := seg.dstPort
            destinationPort := seg.srcPort
            sequenceNumber := iss
            acknowledgmentNumber := 0
            windowSize := wnd
            syn := false, ack := false, fin := false, rst := false }
        iph := { source := dstIp, destination := srcIp, payloadLen := 0 }
        incoming := []
        unacked := []
        closed := false }
    let c1 : Connection := { c with tcph := { c.tcph with syn := true, ack := true } }
    let w := c1.send_ack [] sendOk
    { conn := some w.conn, sent := w.sent.toList }

/-- `SEG.LEN` as computed at the top of `on_packet`: payload bytes plus one
for SYN plus one for FIN. -/
def segLen (s : Seg) : Nat :=
  s.payload.length + (if s.syn then 1 else 0) + (if s.fin then 1 else 0)

/-- The acceptability test of `on_packet` (`valid_range` in `tcp.rs`,
lines 280-303), exactly as the code computes it — including the
`seq != self.recv.nxt` comparison in the zero-length zero-window case. -/
def validRange (c : Connection) (s : Seg) : Bool :=
  let seq := s.seq
  let slen := segLen s
  let toe := wrappingAdd c.recv.nxt c.recv.wnd
  if slen = 0 then
    if c.recv.wnd = 0 then
      seq != c.recv.nxt
    else
      is_between_wrapped (wrappingSub c.recv.nxt 1) seq toe
  else
    decide (c.recv.wnd ≠ 0) &&
      (is_between_wrapped (wrappingSub c.recv.nxt 1) seq toe ||
        is_between_wrapped (wrappingSub c.recv.nxt 1)
          (wrappingSub (wrappingAdd seq slen) 1) toe)

/-- Lines 339-354 of `tcp.rs`: in `Estab`/`FinWait1`/`FinWait2` move
`send.una` to `SEG.ACK` when `is_between_wrapped(send.una, SEG.ACK,
send.nxt + 1)`, then in `FinWait1` promote to `FinWait2` once
`send.una == send.iss + 2`.  The acked bytes are not removed from
`unacked` (a TODO in the source). -/
def ackPhase (c : Connection) (ackN : Nat) : Connection :=
  let c1 :=
    if c.state = .Estab ∨ c.state = .FinWait1 ∨ c.state = .FinWait2 then
      if is_between_wrapped c.send.una ackN (wrappingAdd c.send.nxt 1) then
        { c with send := { c.send with una := ackN } }
      else c
    else c
  if c1.state = .FinWait1 ∧ c1.send.una = (c1.send.iss + 2) % u32M then
    { c1 with state := .FinWait2 }
  else c1

/-- Lines 356-368 of `tcp.rs`: in `Estab`/`FinWait1`/`FinWait2` compute the
unread offset (reset to 0 when it exceeds the payload length), extend the
incoming queue, advance `recv.nxt` to `SEG.SEQ + payload.len`, and emit an
ACK via `send_ack`. -/
def dataPhase (c : Connection) (s : Seg) : Connection × List OutSeg :=
  if c.state = .Estab ∨ c.state = .FinWait1 ∨ c.state = .FinWait2 then
    let unread0 := wrappingSub c.recv.nxt s.seq
    let unreadAt := if s.payload.length < unread0 then 0 else unread0
    let c1 : Connection :=
      { c with
        incoming := c.incoming ++ s.payload.drop unreadAt
        recv := { c.recv with nxt := wrappingAdd s.seq s.payload.length } }
    let w := c1.send_ack [] true
    (w.conn, w.sent.toList)
  else (c, [])

/-- Lines 375-396 of `tcp.rs`: FIN handling. -/
def finPhase (c : Connection) (s : Seg) : Connection × List OutSeg :=
  if s.fin then
    if c.state = .SynRcvd ∨ c.state = .Estab then
      ({ c with state := .CloseWait }, [])
    else if c.state = .FinWait1 then
      if s.ack && decide (c.send.una = (c.send.iss + 2) % u32M) then
        ({ c with state := .TimeWait }, [])
      else
        let c1 : Connection := { c with state := .Closing }
        let w := c1.send_ack [] true
        (w.conn, w.sent.toList)
    else if c.state = .FinWait2 then
      let w := c.write 0 [] true
      ({ w.conn with state := .TimeWait }, w.sent.toList)
    else (c, [])
  else (c, [])

/-- Result of `Connection::on_packet`: the mutated connection, every
datagram handed to `nic.send` in order, and the returned `Available`. -/
structure OnPacketResult where
  conn : Connection
  sent : List OutSeg
  avail : Available
deriving DecidableEq, Repr

/-- `Connection::on_packet` from `tcp.rs`, lines 269-399, with every
`nic.send` succeeding.  Returns `none` exactly when the Rust code panics
(the `assert!(data.is_empty())` on a SYN without ACK). -/
def Connection.on_packet (c : Connection) (s : Seg) : Option OnPacketResult :=
  if !validRange c s then
    some { conn := c, sent := [], avail := c.availability }
  else if !s.ack then
    if s.syn then
      if s.payload.isEmpty then
        let c1 : Connection := { c with recv := { c.recv with nxt := wrappingAdd s.seq 1 } }
        some { conn := c1, sent := [], avail := c1.availability }
      else
        none
    else
      some { conn := c, sent := [], avail := c.availability }
  else if c.state = .SynRcvd ∧
      ¬ is_between_wrapped (wrappingSub c.send.una 1) s.ackN
          (wrappingAdd c.send.nxt 1) then
    let w := c.send_rst true
    some { conn := w.conn, sent := w.sent.toList, avail := w.conn.availability }
  else
    let c1 := if c.state = .SynRcvd then { c with state := .Estab } else c
    let c2 := ackPhase c1 s.ackN
    let d3 := dataPhase c2 s
    let d4 := finPhase d3.1 s
    some { conn := d4.1, sent := d3.2 ++ d4.2, avail := d4.1.availability }

/-- The four-tuple (`Quad` in `tcp.rs`): remote and local IPv4 endpoint. -/
structure Quad where
  srcIp : Nat
  srcPort : Nat
  dstIp : Nat
  dstPort : Nat
deriving DecidableEq, Repr

/-- Association-list lookup standing for `HashMap::entry` in `main.rs`. -/
def lookupQuad (conns : List (Quad × Connection)) (q : Quad) : Option Connection :=
  match conns with
  | [] => none
  | (q1, c) :: rest => if q1 = q then some c else lookupQuad rest q

/-- Replace the connection stored under an occupied quad. -/
def updateQuad (conns : List (Quad × Connection)) (q : Quad) (c : Connection) :
    List (Quad × Connection) :=
  match conns with
  | [] => []
  | (q1, c1) :: rest =>
    if q1 = q then (q1, c) :: rest else (q1, c1) :: updateQuad rest q c

/-- The per-segment dispatch of `main.rs` (lines 44-68): an occupied entry
goes to `on_packet`; a vacant entry goes to `Connection::accept`, and the
new connection, when one is returned, is inserted under the quad.  There is
no listener table: the destination port is never consulted.  `none` models
a panic inside `on_packet`. -/
def handleSegment (conns : List (Quad × Connection)) (q : Quad)
    (srcIp dstIp : List Nat) (s : Seg) :
    Option (List (Quad × Connection) × List OutSeg) :=
  match lookupQuad conns q with
  | some c =>
    (c.on_packet s).map (fun r => (updateQuad conns q r.conn, r.sent))
  | none =>
    let r := Connection.accept srcIp dstIp s true
    some
      (match r.conn with
        | some c => (q, c) :: conns
        | none => conns,
        r.sent)

/-! ### The TCP header parser of `lib.rs` -/

/-- `HeaderError` from `lib.rs`. -/
inductive HeaderError where
  | InvalidLengthError (n : Nat)
  | Unknown
deriving DecidableEq, Repr

/-- `TcpSlice` from `lib.rs`: a validated view onto a byte slice. -/
structure TcpSliceT where
  header_len : Nat
  slice : List Nat
deriving DecidableEq, Repr

/-- `TcpSlice::from_slice` from `lib.rs`: rejects slices shorter than 20
bytes and data-offset values encoding fewer than 20 header bytes.  The
header length is `(slice[12] & 0xf0) >> 2`, four times the data-offset
field.  There is no comparison of the header length against the slice
length. -/
def from_slice (s : List Nat) : Except HeaderError TcpSliceT :=
  if s.length < 20 then
    .error (.InvalidLengthError s.length)
  else
    let offset := Nat.shiftRight (Nat.land (s.getD 12 0) 240) 2
    if offset < 20 then
      .error (.InvalidLengthError s.length)
    else
      .ok { header_len := offset, slice := s }

/-- `TcpSlice::options` from `lib.rs`: `&slice[20..header_len]`.  Returns
`none` when the Rust range would be out of bounds (an index panic). -/
def TcpSliceT.options (t : TcpSliceT) : Option (List Nat) :=
  if 20 ≤ t.header_len ∧ t.header_len ≤ t.slice.length then
    some ((t.slice.drop 20).take (t.header_len - 20))
  else
    none

/-! ### Send-space invariant and concrete inputs used by the claims -/

/-- The send-sequence-space invariant of the specification:
`una ≤ nxt ≤ una + wnd` in modulo-`2^32` order, rendered as the circular
distance from `una` to `nxt` being at most `wnd`. -/
def sendInv (c : Connection) : Bool :=
  decide (wrappingSub c.send.nxt c.send.una ≤ c.send.wnd)

/-- Remote IPv4 address used in concrete scenarios. -/
def ipRemote : List Nat := [192, 168, 0, 2]

/-- Local IPv4 address used in concrete scenarios. -/
def ipLocal : List Nat := [192, 168, 0, 1]

/-- The IPv4 template of a connection accepted from `ipRemote`. -/
def iphScn : Ipv4HeaderTpl :=
  { source := ipLocal, destination := ipRemote, payloadLen := 20 }

/-- The TCP template of a connection accepted on port 8000 from port 40000,
as it stands after the handshake (SYN consumed, ACK flag latched). -/
def tcphScn : TcpHeaderTpl :=
  { sourcePort := 8000
    destinationPort := 40000
    sequenceNumber := 1
    acknowledgmentNumber := 1001
    windowSize := 1024
    syn := false, ack := true, fin := false, rst := false }

/-- Concrete connection for claim C1: established, `recv.nxt = 1001`,
`recv.wnd = 0`. -/
def connC1 : Connection :=
  { state := .Estab
    send := { una := 1, nxt := 1, wnd := 1024, up := false, wl1 := 0, wl2 := 0, iss := 0 }
    recv := { nxt := 1001, wnd := 0, up := false, irs := 1000 }
    iph := iphScn
    tcph := tcphScn
    incoming := []
    unacked := []
    closed := false }

/-- Zero-length segment at exactly `recv.nxt` (C1). -/
def segC1eq : Seg :=
  { srcPort := 40000, dstPort := 8000, seq := 1001, ackN := 1, wnd := 4096
    syn := false, ack := true, fin := false, rst := false, payload := [] }

/-- Zero-length segment one past `recv.nxt` (C1). -/
def segC1neq : Seg :=
  { srcPort := 40000, dstPort := 8000, seq := 1002, ackN := 1, wnd := 4096
    syn := false, ack := true, fin := false, rst := false, payload := [] }

/-- Concrete connection for claim C2: established, `recv.nxt = 1001`,
`recv.wnd = 1024`. -/
def connC2 : Connection :=
  { connC1 with recv := { nxt := 1001, wnd := 1024, up := false, irs := 1000 } }

/-- Acceptable in-window segment starting past `recv.nxt` (a five-byte gap),
so that the unread offset `recv.nxt - SEG.SEQ` wraps to `2^32 - 5` (C2). -/
def segC2 : Seg :=
  { srcPort := 40000, dstPort := 8000, seq := 1006, ackN := 1, wnd := 4096
    syn := false, ack := true, fin := false, rst := false
    payload := [119, 111, 114, 108, 100] }

/-- First segment carrying SYN together with ACK and RST (C3). -/
def segC3 : Seg :=
  { srcPort := 40000, dstPort := 8000, seq := 1000, ackN := 77, wnd := 4096
    syn := true, ack := true, fin := false, rst := true, payload := [] }

/-- Concrete connection for claim C4: the state after the scenario-1
handshake and the scenario-2 five-byte delivery (payload already consumed
by the application). -/
def connC4 : Connection :=
  { connC1 with recv := { nxt := 1006, wnd := 4096, up := false, irs := 1000 } }

/-- The peer FIN of scenario 4: `seq = 1006`, `ack = 1` (C4). -/
def segC4 : Seg :=
  { srcPort := 40000, dstPort := 8000, seq := 1006, ackN := 1, wnd := 4096
    syn := false, ack := true, fin := true, rst := false, payload := [] }

/-- Concrete connection for claim C5: established with five unacked bytes
in flight (`send.una = 1`, `send.nxt = 6`). -/
def connC5 : Connection :=
  { connC1 with
    send := { una := 1, nxt := 6, wnd := 1024, up := false, wl1 := 0, wl2 := 0, iss := 0 }
    recv := { nxt := 1006, wnd := 4096, up := false, irs := 1000 }
    unacked := [104, 101, 108, 108, 111] }

/-- An ACK covering all five in-flight bytes (C5). -/
def segC5 : Seg :=
  { srcPort := 40000, dstPort := 8000, seq := 1006, ackN := 6, wnd := 4096
    syn := false, ack := true, fin := false, rst := false, payload := [] }

/-- Concrete connection for claim C6: `FinWait2` after our FIN was acked
(`send.una = send.nxt = iss + 2 = 2`). -/
def connC6 : Connection :=
  { connC1 with
    state := .FinWait2
    send := { una := 2, nxt := 2, wnd := 1024, up := false, wl1 := 0, wl2 := 0, iss := 0 }
    recv := { nxt := 1006, wnd := 4096, up := false, irs := 1000 } }

/-- The peer FIN arriving in `FinWait2` (C6). -/
def segC6 : Seg :=
  { srcPort := 40000, dstPort := 8000, seq := 1006, ackN := 2, wnd := 4096
    syn := false, ack := true, fin := true, rst := false, payload := [] }

/-- A 20-byte slice whose data-offset field is 15, encoding a 60-byte
header (C7). -/
def badSliceC7 : List Nat :=
  [0, 0, 0, 0, 0, 0, 0, 0, 0, 0, 0, 0, 240, 0, 0, 0, 0, 0, 0, 0]

/-- Quad of a SYN addressed to port 9999, for which no listener exists (C9). -/
def quadC9 : Quad :=
  { srcIp := 3232235522, srcPort := 40000, dstIp := 3232235521, dstPort := 9999 }

/-- A plain SYN addressed to port 9999 (C9). -/
def segC9 : Seg :=
  { srcPort := 40000, dstPort := 9999, seq := 5000, ackN := 0, wnd := 4096
    syn := true, ack := false, fin := false, rst := false, payload := [] }

/-- A non-SYN segment addressed to port 9999 (C9 witness). -/
def segC9noSyn : Seg :=
  { srcPort := 40000, dstPort := 9999, seq := 5000, ackN := 0, wnd := 4096
    syn := false, ack := true, fin := false, rst := false, payload := [] }

/-- The scenario-1 SYN to port 8000 (C10 witness). -/
def segScn1 : Seg :=
  { srcPort := 40000, dstPort := 8000, seq := 1000, ackN := 0, wnd := 4096
    syn := true, ack := false, fin := false, rst := false, payload := [] }

/-!
## Theorems

Helper lemmas about `write` and the `on_packet` phases come first, then
one theorem per claim (with witnesses and counterexamples).
-/

theorem write_conn_incoming (c : Connection) (q : Nat) (p : List Nat) (ok : Bool) :
    (c.write q p ok).conn.incoming = c.incoming := rfl

theorem write_conn_recv (c : Connection) (q : Nat) (p : List Nat) (ok : Bool) :
    (c.write q p ok).conn.recv = c.recv := rfl

theorem write_conn_state (c : Connection) (q : Nat) (p : List Nat) (ok : Bool) :
    (c.write q p ok).conn.state = c.state := rfl

theorem write_conn_unacked (c : Connection) (q : Nat) (p : List Nat) (ok : Bool) :
    (c.write q p ok).conn.unacked = c.unacked := rfl

theorem write_conn_una (c : Connection) (q : Nat) (p : List Nat) (ok : Bool) :
    (c.write q p ok).conn.send.una = c.send.una := rfl

theorem write_conn_wnd (c : Connection) (q : Nat) (p : List Nat) (ok : Bool) :
    (c.write q p ok).conn.send.wnd = c.send.wnd := rfl

theorem write_tcph_ack (c : Connection) (q : Nat) (p : List Nat) (ok : Bool) :
    (c.write q p ok).conn.tcph.ack = c.tcph.ack := by
  unfold Connection.write
  by_cases h1 : c.tcph.syn <;> by_cases h2 : c.tcph.fin <;> simp [h1, h2]

theorem write_tcph_rst (c : Connection) (q : Nat) (p : List Nat) (ok : Bool) :
    (c.write q p ok).conn.tcph.rst = c.tcph.rst := by
  unfold Connection.write
  by_cases h1 : c.tcph.syn <;> by_cases h2 : c.tcph.fin <;> simp [h1, h2]

theorem write_tcph_syn (c : Connection) (q : Nat) (p : List Nat) (ok : Bool) :
    (c.write q p ok).conn.tcph.syn = false := by
  unfold Connection.write
  by_cases h1 : c.tcph.syn <;> by_cases h2 : c.tcph.fin <;> simp [h1, h2]

theorem write_tcph_fin (c : Connection) (q : Nat) (p : List Nat) (ok : Bool) :
    (c.write q p ok).conn.tcph.fin = false := by
  unfold Connection.write
  by_cases h1 : c.tcph.syn <;> by_cases h2 : c.tcph.fin <;> simp [h1, h2]

theorem write_nxt_empty (c : Connection) (q : Nat) (ok : Bool)
    (hs : c.tcph.syn = false) (hf : c.tcph.fin = false) :
    (c.write q [] ok).conn.send.nxt = q % u32M := by
  unfold Connection.write
  simp [hs, hf, wrappingAdd]

theorem write_sent_empty (c : Connection) (q : Nat) (ok : Bool)
    (hs : c.tcph.syn = false) (hf : c.tcph.fin = false) :
    (c.write q [] ok).sent =
      if ok then
        some { seq := q % u32M, ackNum := c.recv.nxt, synF := false,
               ackF := c.tcph.ack, finF := false, rstF := c.tcph.rst,
               payload := [] }
      else none := by
  unfold Connection.write
  simp [hs, hf]

theorem una_update_bound (una nxt wnd a : Nat) (hw : wnd < 65536)
    (hinv : wrappingSub nxt una ≤ wnd)
    (h1 : wrapping_lt una a = true)
    (h2 : wrapping_lt a (wrappingAdd nxt 1) = true) :
    wrappingSub nxt a ≤ wnd := by
  unfold wrapping_lt wrappingSub wrappingAdd u32M at *
  simp only [decide_eq_true_eq] at h1 h2
  omega

theorem wrappingSub_mod_left (a b : Nat) :
    wrappingSub (a % u32M) b = wrappingSub a b := by
  unfold wrappingSub u32M
  omega

theorem sendInv_ite (P : Prop) [Decidable P] (d e : Connection)
    (hd : P → sendInv d = true) (he : ¬ P → sendInv e = true) :
    sendInv (if P then d else e) = true := by
  by_cases h : P
  · simpa [h] using hd h
  · simpa [h] using he h

theorem ackPhase_sendInv (c : Connection) (a : Nat) (hw : c.send.wnd < 65536)
    (hinv : sendInv c = true) : sendInv (ackPhase c a) = true := by
  have hc1 : sendInv
      (if c.state = State.Estab ∨ c.state = State.FinWait1 ∨ c.state = State.FinWait2 then
        (if is_between_wrapped c.send.una a (wrappingAdd c.send.nxt 1) = true then
          { c with send := { c.send with una := a } }
        else c)
      else c) = true := by
    refine sendInv_ite _ _ _ (fun hp => ?_) (fun hp => hinv)
    refine sendInv_ite _ _ _ (fun hq => ?_) (fun hq => hinv)
    rw [is_between_wrapped, Bool.and_eq_true] at hq
    unfold sendInv at hinv ⊢
    simp only [decide_eq_true_eq] at hinv ⊢
    exact una_update_bound c.send.una c.send.nxt c.send.wnd a hw hinv hq.1 hq.2
  unfold ackPhase
  exact sendInv_ite _ _ _ (fun hp => hc1) (fun hp => hc1)

theorem dataPhase_sendInv (c : Connection) (s : Seg)
    (hs : c.tcph.syn = false) (hf : c.tcph.fin = false)
    (hinv : sendInv c = true) : sendInv (dataPhase c s).1 = true := by
  by_cases h : (c.state = State.Estab ∨ c.state = State.FinWait1 ∨ c.state = State.FinWait2)
  · simp only [dataPhase, h, if_true]
    unfold sendInv at hinv ⊢
    unfold Connection.send_ack
    simp only [decide_eq_true_eq] at hinv ⊢
    rw [write_conn_una, write_conn_wnd, write_nxt_empty, wrappingSub_mod_left]
    · exact hinv
    · exact hs
    · exact hf
  · simp only [dataPhase, h, if_false]
    unfold sendInv at hinv ⊢
    exact hinv

theorem finPhase_sendInv (c : Connection) (s : Seg)
    (hs : c.tcph.syn = false) (hf : c.tcph.fin = false)
    (hstate : s.fin = true → c.state ≠ State.FinWait2)
    (hinv : sendInv c = true) : sendInv (finPhase c s).1 = true := by
  unfold finPhase
  by_cases hfin : s.fin = true
  · rw [if_pos hfin]
    by_cases h1 : (c.state = State.SynRcvd ∨ c.state = State.Estab)
    · rw [if_pos h1]
      exact hinv
    · rw [if_neg h1]
      by_cases h2 : c.state = State.FinWait1
      · rw [if_pos h2]
        by_cases h4 : (s.ack && decide (c.send.una = (c.send.iss + 2) % u32M)) = true
        · rw [if_pos h4]
          exact hinv
        · rw [if_neg h4]
          unfold sendInv at hinv ⊢
          unfold Connection.send_ack
          simp only [decide_eq_true_eq] at hinv ⊢
          rw [write_conn_una, write_conn_wnd, write_nxt_empty, wrappingSub_mod_left]
          · exact hinv
          · exact hs
          · exact hf
      · rw [if_neg h2]
        have h3 : ¬ c.state = State.FinWait2 := hstate hfin
        rw [if_neg h3]
        exact hinv
  · rw [if_neg hfin]
    exact hinv

theorem ackPhase_recv (c : Connection) (a : Nat) : (ackPhase c a).recv = c.recv := by
  unfold ackPhase
  by_cases h1 : (c.state = State.Estab ∨ c.state = State.FinWait1 ∨ c.state = State.FinWait2) <;>
    by_cases h2 : is_between_wrapped c.send.una a (wrappingAdd c.send.nxt 1) <;>
      simp [h1, h2] <;> split <;> rfl

theorem ackPhase_incoming (c : Connection) (a : Nat) :
    (ackPhase c a).incoming = c.incoming := by
  unfold ackPhase
  by_cases h1 : (c.state = State.Estab ∨ c.state = State.FinWait1 ∨ c.state = State.FinWait2) <;>
    by_cases h2 : is_between_wrapped c.send.una a (wrappingAdd c.send.nxt 1) <;>
      simp [h1, h2] <;> split <;> rfl

theorem ackPhase_tcph (c : Connection) (a : Nat) :
    (ackPhase c a).tcph = c.tcph := by
  unfold ackPhase
  by_cases h1 : (c.state = State.Estab ∨ c.state = State.FinWait1 ∨ c.state = State.FinWait2) <;>
    by_cases h2 : is_between_wrapped c.send.una a (wrappingAdd c.send.nxt 1) <;>
      simp [h1, h2] <;> split <;> rfl

theorem ackPhase_unacked (c : Connection) (a : Nat) :
    (ackPhase c a).unacked = c.unacked := by
  unfold ackPhase
  by_cases h1 : (c.state = State.Estab ∨ c.state = State.FinWait1 ∨ c.state = State.FinWait2) <;>
    by_cases h2 : is_between_wrapped c.send.una a (wrappingAdd c.send.nxt 1) <;>
      simp [h1, h2] <;> split <;> rfl

theorem ackPhase_nxt (c : Connection) (a : Nat) :
    (ackPhase c a).send.nxt = c.send.nxt := by
  unfold ackPhase
  by_cases h1 : (c.state = State.Estab ∨ c.state = State.FinWait1 ∨ c.state = State.FinWait2) <;>
    by_cases h2 : is_between_wrapped c.send.una a (wrappingAdd c.send.nxt 1) <;>
      simp [h1, h2] <;> split <;> rfl

theorem ackPhase_wnd (c : Connection) (a : Nat) :
    (ackPhase c a).send.wnd = c.send.wnd := by
  unfold ackPhase
  by_cases h1 : (c.state = State.Estab ∨ c.state = State.FinWait1 ∨ c.state = State.FinWait2) <;>
    by_cases h2 : is_between_wrapped c.send.una a (wrappingAdd c.send.nxt 1) <;>
      simp [h1, h2] <;> split <;> rfl

theorem ackPhase_state_cases (c : Connection) (a : Nat) :
    (ackPhase c a).state = c.state ∨
      (c.state = State.FinWait1 ∧ (ackPhase c a).state = State.FinWait2) := by
  unfold ackPhase
  by_cases h1 : (c.state = State.Estab ∨ c.state = State.FinWait1 ∨ c.state = State.FinWait2) <;>
    by_cases h2 : is_between_wrapped c.send.una a (wrappingAdd c.send.nxt 1) <;>
      simp [h1, h2] <;> split <;> simp_all

theorem ackPhase_state_mem (c : Connection) (a : Nat)
    (h : c.state = State.Estab ∨ c.state = State.FinWait1 ∨ c.state = State.FinWait2) :
    (ackPhase c a).state = State.Estab ∨ (ackPhase c a).state = State.FinWait1 ∨
      (ackPhase c a).state = State.FinWait2 := by
  rcases ackPhase_state_cases c a with h1 | ⟨h1, h2⟩
  · rw [h1]; exact h
  · rw [h2]; right; right; rfl

theorem finPhase_nofin (c : Connection) (s : Seg) (h : s.fin = false) :
    finPhase c s = (c, []) := by
  unfold finPhase
  rw [if_neg]
  simp [h]

theorem dataPhase_incoming_active (c : Connection) (s : Seg)
    (h : c.state = State.Estab ∨ c.state = State.FinWait1 ∨ c.state = State.FinWait2) :
    (dataPhase c s).1.incoming =
      c.incoming ++ s.payload.drop
        (if s.payload.length < wrappingSub c.recv.nxt s.seq then 0
         else wrappingSub c.recv.nxt s.seq) := by
  unfold dataPhase
  rw [if_pos h]
  dsimp only
  rw [Connection.send_ack, write_conn_incoming]

theorem dataPhase_recv_nxt_active (c : Connection) (s : Seg)
    (h : c.state = State.Estab ∨ c.state = State.FinWait1 ∨ c.state = State.FinWait2) :
    (dataPhase c s).1.recv.nxt = wrappingAdd s.seq s.payload.length := by
  unfold dataPhase
  rw [if_pos h]
  dsimp only
  rw [Connection.send_ack, write_conn_recv]

theorem dataPhase_sent_active (c : Connection) (s : Seg)
    (h : c.state = State.Estab ∨ c.state = State.FinWait1 ∨ c.state = State.FinWait2)
    (hs : c.tcph.syn = false) (hf : c.tcph.fin = false) :
    (dataPhase c s).2 =
      [{ seq := c.send.nxt % u32M, ackNum := wrappingAdd s.seq s.payload.length,
         synF := false, ackF := c.tcph.ack, finF := false, rstF := c.tcph.rst,
         payload := [] }] := by
  unfold dataPhase
  rw [if_pos h]
  dsimp only
  rw [Connection.send_ack, write_sent_empty]
  · rfl
  · exact hs
  · exact hf

theorem dataPhase_state (c : Connection) (s : Seg) :
    (dataPhase c s).1.state = c.state := by
  unfold dataPhase
  split <;> rfl

theorem write_nxt_syn_empty (c : Connection) (q : Nat) (ok : Bool)
    (hs : c.tcph.syn = true) (hf : c.tcph.fin = false) :
    (c.write q [] ok).conn.send.nxt = wrappingAdd (wrappingAdd q 0) 1 := by
  unfold Connection.write
  simp [hs, hf]

/-- Claim C1.  The zero-window acceptability comparison of `on_packet` is
inverted: on a connection with `recv.nxt = 1001` and `recv.wnd = 0`, the
zero-length segment at exactly `SEG.SEQ = recv.nxt` is the one the code
drops with no state change and nothing sent, while the zero-length segment
at `SEG.SEQ = 1002 ≠ recv.nxt` passes the acceptability test, mutates
`recv.nxt` and elicits an ACK — the exact opposite of the claim. -/
theorem c1_zero_window_acceptability_inverted :
    validRange connC1 segC1eq = false ∧
    validRange connC1 segC1neq = true ∧
    Connection.on_packet connC1 segC1eq =
      some { conn := connC1, sent := [], avail := { flag := 0 } } ∧
    (Connection.on_packet connC1 segC1neq).map
      (fun r => (r.conn.recv.nxt, r.sent.length)) = some (1002, 1) := by
  decide

/-- Claim C2, counterexample.  For the acceptable segment `segC2`
(`SEG.SEQ = 1006`, five payload bytes, `recv.nxt = 1001`) the unread
offset `recv.nxt - SEG.SEQ` wraps to `2^32 - 5`; clamped to
`[0, payload.len]` as the claim states it would be `5`, so the claim says
nothing (`payload[5..] = []`) is appended — but `on_packet` resets the
oversized offset to `0` and appends the whole payload. -/
theorem c2_offset_not_clamped :
    segC2.payload ≠ [] ∧ connC2.incoming = [] ∧
    min (wrappingSub connC2.recv.nxt segC2.seq) segC2.payload.length =
      segC2.payload.length ∧
    validRange connC2 segC2 = true ∧
    (Connection.on_packet connC2 segC2).map (fun r => r.conn.incoming) =
      some segC2.payload := by
  decide

/-- Claim C3, counterexample.  A first segment carrying SYN together with
ACK and RST still materializes a connection and emits a SYN+ACK:
`Connection::accept` tests only the SYN flag. -/
theorem c3_syn_ack_rst_creates_connection :
    segC3.syn = true ∧ segC3.ack = true ∧ segC3.rst = true ∧
    (Connection.accept ipRemote ipLocal segC3 true).conn.isSome = true ∧
    (Connection.accept ipRemote ipLocal segC3 true).sent.length = 1 := by
  decide

/-- Claim C4.  On the scenario-4 FIN (`seq = 1006`, `ack = 1`, state
`Estab`) the code replies with an ACK whose ack number is 1006 — `recv.nxt`
is never advanced past the FIN — and although the state becomes
`CloseWait`, `is_recv_closed` still reports `false`, so a read with an
empty incoming queue would block rather than return 0. -/
theorem c4_passive_close_fin_not_consumed :
    (Connection.on_packet connC4 segC4).map
      (fun r => (r.conn.state, r.sent, r.conn.is_recv_closed, r.conn.recv.nxt)) =
    some (State.CloseWait,
      [{ seq := 1, ackNum := 1006, synF := false, ackF := true, finF := false,
         rstF := false, payload := [] }],
      false, 1006) := by
  decide

/-- Claim C5.  An ACK covering all five in-flight bytes moves `send.una`
from 1 to 6, but the five bytes remain in the unacked queue: the dequeue
the claim describes is a TODO in the source. -/
theorem c5_ack_does_not_dequeue_unacked :
    connC5.unacked = [104, 101, 108, 108, 111] ∧
    (Connection.on_packet connC5 segC5).map
      (fun r => (r.conn.send.una, r.conn.unacked)) =
    some (6, [104, 101, 108, 108, 111]) := by
  decide

/-- Claim C6, counterexample.  The reachable `FinWait2` state with
`send.una = send.nxt = 2` satisfies the invariant, but the FIN handling of
`FinWait2` calls `write` with sequence number 0, which resets `send.nxt`
to 0 while `send.una` stays 2 — `una ≤ nxt ≤ una + wnd` no longer holds in
modulo-`2^32` order. -/
theorem c6_finwait2_fin_violates_invariant :
    sendInv connC6 = true ∧
    (Connection.on_packet connC6 segC6).map
      (fun r => (sendInv r.conn, r.conn.send.una, r.conn.send.nxt)) =
    some (false, 2, 0) := by
  decide

/-- Claim C7.  `from_slice` accepts the 20-byte slice whose data-offset
field encodes a 60-byte header: the upper-bound comparison against the
slice length is missing, and `options()` on the resulting `TcpSlice`
indexes out of bounds (`slice[20..60]` on a 20-byte slice).  The two
validations that do exist (length at least 20, encoded header length at
least 20) behave as described. -/
theorem c7_from_slice_missing_upper_bound :
    from_slice badSliceC7 = .ok { header_len := 60, slice := badSliceC7 } ∧
    badSliceC7.length = 20 ∧
    TcpSliceT.options { header_len := 60, slice := badSliceC7 } = none ∧
    from_slice (List.replicate 19 0) = .error (.InvalidLengthError 19) := by
  exact ⟨rfl, rfl, rfl, rfl⟩

/-- Claim C9, counterexample.  `main.rs` keeps no listener table: a SYN
whose four-tuple is vacant is handed to `Connection::accept` no matter the
destination port (9999 here, with no listener anywhere in the program), a
connection is installed under the quad and a SYN+ACK is emitted. -/
theorem c9_unlistened_port_gets_connection :
    (handleSegment [] quadC9 ipRemote ipLocal segC9).map
      (fun r => ((lookupQuad r.1 quadC9).isSome, r.2.length)) =
    some (true, 1) := by
  decide

/-- Claim C2, amended.  For every acceptable segment with ACK set, FIN
clear and a non-empty payload processed in `Estab`, `FinWait1` or
`FinWait2` (with a well-formed template: SYN/FIN/RST clear, ACK latched),
`on_packet` appends `payload[off..]` to the incoming queue where
`off = (recv.nxt - SEG.SEQ) mod 2^32` when that value is at most
`payload.len` and `off = 0` otherwise (a reset, not the clamp the claim
describes), advances `recv.nxt` to `SEG.SEQ + payload.len` mod `2^32`, and
emits exactly one ACK with seq `send.nxt`, ack `recv.nxt`, empty payload. -/
theorem c2_data_delivery_amended :
    ∀ (c : Connection) (s : Seg),
      (c.state = State.Estab ∨ c.state = State.FinWait1 ∨ c.state = State.FinWait2) →
      s.ack = true → s.fin = false → s.payload ≠ [] →
      validRange c s = true →
      c.tcph.syn = false → c.tcph.fin = false → c.tcph.rst = false → c.tcph.ack = true →
      (Connection.on_packet c s).map
        (fun r => (r.conn.incoming, r.conn.recv.nxt, r.sent)) =
      some
        (c.incoming ++ s.payload.drop
            (if s.payload.length < wrappingSub c.recv.nxt s.seq then 0
             else wrappingSub c.recv.nxt s.seq),
         wrappingAdd s.seq s.payload.length,
         [{ seq := c.send.nxt % u32M, ackNum := wrappingAdd s.seq s.payload.length,
            synF := false, ackF := true, finF := false, rstF := false,
            payload := [] }]) := by
  intro c s hst hack hfin hpay hv hs hf hr ha
  have hns : ¬ c.state = State.SynRcvd := by
    rcases hst with h | h | h <;> simp [h]
  have hmem := ackPhase_state_mem c s.ackN hst
  have htc := ackPhase_tcph c s.ackN
  unfold Connection.on_packet
  rw [hv, hack]
  simp only [Bool.not_true, Bool.false_eq_true, if_false]
  rw [if_neg (fun hh => hns hh.1), if_neg hns]
  rw [finPhase_nofin _ _ hfin]
  dsimp only
  simp only [Option.map_some']
  rw [dataPhase_incoming_active _ _ hmem, dataPhase_recv_nxt_active _ _ hmem,
    dataPhase_sent_active _ _ hmem (by rw [htc]; exact hs) (by rw [htc]; exact hf),
    ackPhase_incoming, ackPhase_recv, ackPhase_nxt, htc, ha, hr]
  simp

/-- Witness for C2 at the concrete established connection `connC2` and the
concrete segment `segC2`. -/
theorem c2_data_delivery_amended_witness :
    (Connection.on_packet connC2 segC2).map
      (fun r => (r.conn.incoming, r.conn.recv.nxt, r.sent)) =
    some
      (connC2.incoming ++ segC2.payload.drop
          (if segC2.payload.length < wrappingSub connC2.recv.nxt segC2.seq then 0
           else wrappingSub connC2.recv.nxt segC2.seq),
       wrappingAdd segC2.seq segC2.payload.length,
       [{ seq := connC2.send.nxt % u32M,
          ackNum := wrappingAdd segC2.seq segC2.payload.length,
          synF := false, ackF := true, finF := false, rstF := false,
          payload := [] }]) := by
  exact c2_data_delivery_amended connC2 segC2 (Or.inl rfl) rfl rfl (by decide)
    (by decide) rfl rfl rfl rfl

/-- Claim C3, amended.  `Connection::accept` materializes a connection
(in state `SynRcvd`) whenever the first segment has SYN set, regardless of
the ACK and RST flags; only a segment without SYN yields `Ok(None)` with
nothing sent. -/
theorem c3_accept_checks_only_syn :
    ∀ (si di : List Nat) (s : Seg) (ok : Bool),
      ((Connection.accept si di s ok).conn.isSome = s.syn) ∧
      (s.syn = false → Connection.accept si di s ok = { conn := none, sent := [] }) ∧
      (s.syn = true →
        (Connection.accept si di s ok).conn.map Connection.state =
          some State.SynRcvd) := by
  intro si di s ok
  cases hs : s.syn <;>
    simp [Connection.accept, hs, Connection.send_ack, Connection.write]

/-- Witness for C3 at a concrete non-SYN segment and the concrete
scenario-1 SYN. -/
theorem c3_accept_checks_only_syn_witness :
    Connection.accept ipRemote ipLocal segC9noSyn true = { conn := none, sent := [] } ∧
    (Connection.accept ipRemote ipLocal segScn1 true).conn.map Connection.state =
      some State.SynRcvd := by
  exact ⟨(c3_accept_checks_only_syn ipRemote ipLocal segC9noSyn true).2.1 rfl,
    (c3_accept_checks_only_syn ipRemote ipLocal segScn1 true).2.2 rfl⟩

/-- Claim C6, amended.  The send-space invariant `una ≤ nxt ≤ una + wnd`
(modulo `2^32`) is established by `Connection::accept` (including its
SYN+ACK emission), preserved by `send_ack` with an empty buffer whenever
the template SYN/FIN flags are clear, and preserved by every `on_packet`
call whose template SYN/FIN flags are clear, whose `send.una` is 0 while
still in `SynRcvd`, and whose segment does not carry a FIN into `FinWait1`
or `FinWait2` — the excluded FinWait2 FIN path calls `write` with sequence
number 0 and violates the invariant (see the counterexample). -/
theorem c6_send_invariant_amended :
    (∀ (si di : List Nat) (s : Seg) (ok : Bool) (c : Connection),
        (Connection.accept si di s ok).conn = some c →
        sendInv c = true ∧ c.send.wnd = 1024) ∧
    (∀ (c : Connection) (ok : Bool), sendInv c = true → c.tcph.syn = false →
        c.tcph.fin = false → sendInv (c.send_ack [] ok).conn = true) ∧
    (∀ (c : Connection) (s : Seg) (r : OnPacketResult),
        sendInv c = true → c.send.wnd < 65536 →
        c.tcph.syn = false → c.tcph.fin = false →
        (c.state = State.SynRcvd → c.send.una = 0) →
        (s.fin = true → c.state ≠ State.FinWait1 ∧ c.state ≠ State.FinWait2) →
        Connection.on_packet c s = some r → sendInv r.conn = true) := by
  refine ⟨?_, ?_, ?_⟩
  · -- creation establishes the invariant
    intro si di s ok c hc
    cases hsyn : s.syn
    · rw [Connection.accept] at hc
      simp [hsyn] at hc
    · rw [Connection.accept] at hc
      simp only [hsyn, Bool.not_true, Bool.false_eq_true, if_false,
        Option.some.injEq] at hc
      subst hc
      constructor
      · unfold sendInv
        simp only [decide_eq_true_eq]
        rw [Connection.send_ack, write_conn_una, write_conn_wnd,
          write_nxt_syn_empty]
        · dsimp only
          unfold wrappingAdd wrappingSub u32M
          omega
        · rfl
        · rfl
      · rw [Connection.send_ack, write_conn_wnd]
  · -- send_ack with an empty buffer preserves the invariant
    intro c ok hinv hs hf
    unfold sendInv at hinv ⊢
    unfold Connection.send_ack
    simp only [decide_eq_true_eq] at hinv ⊢
    rw [write_conn_una, write_conn_wnd, write_nxt_empty, wrappingSub_mod_left]
    · exact hinv
    · exact hs
    · exact hf
  · -- on_packet preserves the invariant away from the seq-0 writes
    intro c s r hinv hw hs hf huna hfin hop
    unfold Connection.on_packet at hop
    by_cases hv : validRange c s = true
    · rw [hv] at hop
      simp only [Bool.not_true, Bool.false_eq_true, if_false] at hop
      by_cases hack : s.ack = true
      · rw [hack] at hop
        simp only [Bool.not_true, Bool.false_eq_true, if_false] at hop
        by_cases hcond : (c.state = State.SynRcvd ∧
            ¬ is_between_wrapped (wrappingSub c.send.una 1) s.ackN
                (wrappingAdd c.send.nxt 1) = true)
        · -- RST path
          rw [if_pos hcond] at hop
          simp only [Option.some.injEq] at hop
          subst hop
          unfold Connection.send_rst Connection.write
          dsimp only
          unfold sendInv
          simp only [decide_eq_true_eq]
          rw [hs, hf]
          simp only [Bool.false_eq_true, if_false]
          rw [huna hcond.1]
          unfold wrappingSub wrappingAdd u32M
          simp
        · -- normal path
          rw [if_neg hcond] at hop
          simp only [Option.some.injEq] at hop
          subst hop
          dsimp only
          set c1 : Connection :=
            if c.state = State.SynRcvd then { c with state := State.Estab } else c
            with hc1
          have h1inv : sendInv c1 = true := by
            rw [hc1]
            exact sendInv_ite _ _ _ (fun _ => hinv) (fun _ => hinv)
          have h1send : c1.send = c.send := by
            rw [hc1]; split <;> rfl
          have h1tcph : c1.tcph = c.tcph := by
            rw [hc1]; split <;> rfl
          have h2inv : sendInv (ackPhase c1 s.ackN) = true :=
            ackPhase_sendInv c1 s.ackN (by rw [h1send]; exact hw) h1inv
          have h2tcph : (ackPhase c1 s.ackN).tcph = c.tcph := by
            rw [ackPhase_tcph, h1tcph]
          have h3inv : sendInv (dataPhase (ackPhase c1 s.ackN) s).1 = true :=
            dataPhase_sendInv _ _ (by rw [h2tcph]; exact hs)
              (by rw [h2tcph]; exact hf) h2inv
          have h3syn : (dataPhase (ackPhase c1 s.ackN) s).1.tcph.syn = false := by
            unfold dataPhase
            split
            · dsimp only
              rw [Connection.send_ack, write_tcph_syn]
            · rw [h2tcph]; exact hs
          have h3fin : (dataPhase (ackPhase c1 s.ackN) s).1.tcph.fin = false := by
            unfold dataPhase
            split
            · dsimp only
              rw [Connection.send_ack, write_tcph_fin]
            · rw [h2tcph]; exact hf
          have h3state : (dataPhase (ackPhase c1 s.ackN) s).1.state =
              (ackPhase c1 s.ackN).state := dataPhase_state _ _
          have hnofw2 : s.fin = true →
              (dataPhase (ackPhase c1 s.ackN) s).1.state ≠ State.FinWait2 := by
            intro hfi
            rw [h3state]
            rcases ackPhase_state_cases c1 s.ackN with hA | ⟨hA, hB⟩
            · rw [hA, hc1]
              split
              · simp
              · exact (hfin hfi).2
            · exfalso
              rw [hc1] at hA
              rcases (hfin hfi) with ⟨hx, _⟩
              by_cases hsr : c.state = State.SynRcvd
              · rw [if_pos hsr] at hA
                exact State.noConfusion hA
              · rw [if_neg hsr] at hA
                exact hx hA
          exact finPhase_sendInv _ _ h3syn h3fin hnofw2 h3inv
      · -- ACK flag clear
        simp only [Bool.not_eq_true] at hack
        rw [hack] at hop
        simp only [Bool.not_false, if_true] at hop
        by_cases hsyn : s.syn = true
        · rw [hsyn] at hop
          simp only [if_true] at hop
          by_cases hemp : s.payload.isEmpty = true
          · rw [hemp] at hop
            simp only [if_true, Option.some.injEq] at hop
            subst hop
            exact hinv
          · simp only [hemp, Bool.false_eq_true, if_false] at hop
            exact absurd hop (by simp)
        · simp only [Bool.not_eq_true] at hsyn
          rw [hsyn] at hop
          simp only [Bool.false_eq_true, if_false, Option.some.injEq] at hop
          subst hop
          exact hinv
    · -- acceptability test fails: no state change
      simp only [Bool.not_eq_true] at hv
      rw [hv] at hop
      simp only [Bool.not_false, if_true, Option.some.injEq] at hop
      subst hop
      exact hinv

/-- Witness for C6: the on_packet clause applied at the concrete connection
`connC1` and the concrete zero-window segment `segC1eq`. -/
theorem c6_send_invariant_amended_witness : sendInv connC1 = true := by
  exact c6_send_invariant_amended.2.2 connC1 segC1eq
    { conn := connC1, sent := [], avail := { flag := 0 } }
    (by decide) (by decide) rfl rfl (by decide) (by decide) (by decide)

/-- Claim C8.  `is_between_wrapped` is invariant under simultaneously
adding any `k` modulo `2^32` to all three arguments, and `wrapping_lt(a,b)`
holds exactly when `(a - b) mod 2^32` exceeds `2^31`. -/
theorem c8_is_between_wrapped_shift_invariant :
    (∀ a b c k : Nat,
      is_between_wrapped (wrappingAdd a k) (wrappingAdd b k) (wrappingAdd c k) =
        is_between_wrapped a b c) ∧
    (∀ x y : Nat, wrapping_lt x y = true ↔ 2147483648 < wrappingSub x y) := by
  have key : ∀ a b k : Nat,
      wrappingSub (wrappingAdd a k) (wrappingAdd b k) = wrappingSub a b := by
    intro a b k
    unfold wrappingSub wrappingAdd u32M
    omega
  refine ⟨fun a b c k => ?_, fun x y => ?_⟩
  · simp [is_between_wrapped, wrapping_lt, key]
  · simp [wrapping_lt]

/-- Claim C9, amended.  `main.rs` keeps no listener registry: for every
segment whose four-tuple is vacant in the connection table, the dispatcher
always hands the segment to `Connection::accept` — the destination port is
never consulted — and a connection is installed under the quad exactly
when the segment carries SYN (with the SYN+ACK emitted); a non-SYN segment
leaves the table unchanged with nothing sent. -/
theorem c9_vacant_quad_always_accepted :
    ∀ (conns : List (Quad × Connection)) (q : Quad)
      (si di : List Nat) (s : Seg), lookupQuad conns q = none →
      handleSegment conns q si di s =
        some ((match (Connection.accept si di s true).conn with
                | some c => (q, c) :: conns
                | none => conns),
              (Connection.accept si di s true).sent) ∧
      (s.syn = true → (handleSegment conns q si di s).map
          (fun r => ((lookupQuad r.1 q).isSome, r.2.length)) = some (true, 1)) ∧
      (s.syn = false → handleSegment conns q si di s = some (conns, [])) := by
  intro conns q si di s hvac
  refine ⟨?_, ?_, ?_⟩
  · simp [handleSegment, hvac]
  · intro hs
    simp [handleSegment, hvac, Connection.accept, hs, Connection.send_ack,
      Connection.write, lookupQuad]
  · intro hs
    simp [handleSegment, hvac, Connection.accept, hs]

/-- Witness for C9 on the empty connection table and concrete segments to
port 9999. -/
theorem c9_vacant_quad_always_accepted_witness :
    handleSegment [] quadC9 ipRemote ipLocal segC9noSyn = some ([], []) ∧
    (handleSegment [] quadC9 ipRemote ipLocal segC9).map
      (fun r => ((lookupQuad r.1 quadC9).isSome, r.2.length)) = some (true, 1) := by
  exact ⟨(c9_vacant_quad_always_accepted [] quadC9 ipRemote ipLocal segC9noSyn rfl).2.2 rfl,
    (c9_vacant_quad_always_accepted [] quadC9 ipRemote ipLocal segC9 rfl).2.1 rfl⟩

/-- Claim C10.  When the tunnel send inside `accept` fails, the failure is
discarded: `accept` still returns the connection, nothing reaches the wire,
and the returned connection — identical to the one a successful send would
produce, because `write` mutates state before `nic.send` — is already in
`SynRcvd` with `send.nxt = iss + 1 = 1` and the template SYN flag cleared. -/
theorem c10_accept_ignores_send_failure :
    ∀ (si di : List Nat) (s : Seg), s.syn = true →
      (Connection.accept si di s false).conn = (Connection.accept si di s true).conn ∧
      (Connection.accept si di s false).sent = [] ∧
      (Connection.accept si di s false).conn.map
        (fun c => (c.state, c.send.nxt, c.tcph.syn)) =
        some (State.SynRcvd, 1, false) := by
  intro si di s h
  refine ⟨?_, ?_, ?_⟩ <;>
    simp [Connection.accept, h, Connection.send_ack, Connection.write,
      wrappingAdd, u32M]

/-- Witness for C10 at the concrete scenario-1 SYN. -/
theorem c10_accept_ignores_send_failure_witness :
    (Connection.accept ipRemote ipLocal segScn1 false).conn =
      (Connection.accept ipRemote ipLocal segScn1 true).conn ∧
    (Connection.accept ipRemote ipLocal segScn1 false).sent = [] ∧
    (Connection.accept ipRemote ipLocal segScn1 false).conn.map
      (fun c => (c.state, c.send.nxt, c.tcph.syn)) =
      some (State.SynRcvd, 1, false) := by
  exact c10_accept_ignores_send_failure ipRemote ipLocal segScn1 rfl

end Tcprs
